import Mathlib

/-!
Shallow embedding of the ArbPredict trading core (TypeScript sources under
`src/`), together with proofs about the claims of its specification.

Monetary amounts and prices are modelled as rationals (`ℚ`); the TypeScript
source uses IEEE doubles, but every constant involved is a small decimal and
the arithmetic structure is preserved exactly.  Impure ingredients
(`generateId()`, `new Date()`, database writes, logging, Telegram transport)
are modelled as explicit constants or as effect logs threaded through the
functions; timestamps are integers (milliseconds since epoch).
-/

set_option maxHeartbeats 1000000

namespace ArbPredict

/-- `Platform` from `src/types/index.ts`: `'polymarket' | 'kalshi'`. -/
inductive Platform where
  | polymarket
  | kalshi
deriving DecidableEq, Repr

/-- `OperatingMode` from `src/types/index.ts`: `'dry_run' | 'live'`. -/
inductive OperatingMode where
  | dry_run
  | live
deriving DecidableEq, Repr

/-- JavaScript's `x || d` on an optional number: `undefined` and `0` are both
falsy, so a present value of `0` also yields the default.  Used for the
`book.bids[0]?.price || 0` style accesses in the detector and for
`riskCheck.suggestedQuantity || quantity` in the execution engine. -/
def orFalsy (v : Option ℚ) (d : ℚ) : ℚ :=
  match v with
  | none => d
  | some x => if x = 0 then d else x

/-- One level of an order book (`OrderBookLevel` in `src/types/index.ts`). -/
structure OrderBookLevel where
  price : ℚ
  size : ℚ
deriving DecidableEq, Repr

/-- `OrderBook` from `src/types/index.ts` (the `timestamp` field is not read
by the detector and is kept as an integer). -/
structure OrderBook where
  bids : List OrderBookLevel
  asks : List OrderBookLevel
  timestamp : Int
deriving DecidableEq, Repr

/-- `MatchMethod` from `src/types/index.ts`. -/
inductive MatchMethod where
  | exact
  | fuzzy
  | manual
deriving DecidableEq, Repr

/-- `EventMapping` from `src/types/index.ts`.  The `outcomeMapping` entries
are pairs (polymarket outcome, kalshi side); dates are integer timestamps. -/
structure EventMapping where
  id : String
  polymarketConditionId : String
  kalshiTicker : String
  eventDescription : String
  matchConfidence : ℚ
  resolutionDate : Int
  matchMethod : MatchMethod
  outcomeMapping : List (String × String)
  isActive : Bool
  createdAt : Int
  updatedAt : Int
deriving DecidableEq, Repr

/-- The `trading` section of the configuration (`src/config/index.ts`),
restricted to the fields the embedded core reads. -/
structure TradingConfig where
  minProfitThreshold : ℚ
  maxSlippage : ℚ
deriving DecidableEq, Repr

/-- The `risk` section of the configuration (`src/config/index.ts`),
restricted to the fields the embedded core reads. -/
structure RiskConfig where
  maxExposurePerEvent : ℚ
  maxTotalExposure : ℚ
  minProfitThreshold : ℚ
  minLiquidityDepth : ℚ
  maxQuantityPerTrade : ℚ
  minQuantityPerTrade : ℚ
  maxConsecutiveFailures : Nat
  maxAsymmetricExecutions : Nat
deriving DecidableEq, Repr

/-- The `matching` section of the configuration (`src/config/index.ts`). -/
structure MatchingConfig where
  minConfidenceThreshold : ℚ
  exactMatchConfidence : ℚ
  fuzzyMatchMinSimilarity : ℚ
  requireDateValidation : Bool
  requireCategoryMatch : Bool
deriving DecidableEq, Repr

/-- The slice of `Config` (`src/config/index.ts`) consumed by the embedded
core, together with the operating mode. -/
structure Config where
  trading : TradingConfig
  risk : RiskConfig
  matching : MatchingConfig
  operatingMode : OperatingMode
  trackHypotheticalPnL : Bool
deriving DecidableEq, Repr

/-- The default configuration values hard-coded in `loadConfig()`
(`src/config/index.ts`); `TRADING_MODE` defaults to `dry_run`. -/
def defaultConfig : Config :=
  { trading := { minProfitThreshold := 3/100, maxSlippage := 1/100 }
    risk :=
      { maxExposurePerEvent := 100
        maxTotalExposure := 100
        minProfitThreshold := 3/100
        minLiquidityDepth := 50
        maxQuantityPerTrade := 50
        minQuantityPerTrade := 1
        maxConsecutiveFailures := 3
        maxAsymmetricExecutions := 1 }
    matching :=
      { minConfidenceThreshold := 95/100
        exactMatchConfidence := 1
        fuzzyMatchMinSimilarity := 95/100
        requireDateValidation := true
        requireCategoryMatch := true }
    operatingMode := OperatingMode.dry_run
    trackHypotheticalPnL := true }

/-- `estimateFees` from `src/core/arbitrage-detector.ts` (lines 20–47):
Polymarket charges 2% taker fee on the buy notional and on the winnings of
the sell leg; Kalshi charges nothing on the buy and
`min(7% · (1 − sellPrice) · q, 0.07 · q)` on the sell leg. -/
def estimateFees (buyPlatform sellPlatform : Platform)
    (buyPrice sellPrice quantity : ℚ) : ℚ :=
  let fees : ℚ := 0
  let fees :=
    if buyPlatform = Platform.polymarket then
      fees + buyPrice * quantity * (2/100)
    else fees
  let fees :=
    if sellPlatform = Platform.polymarket then
      fees + (1 - sellPrice) * quantity * (2/100)
    else fees
  let fees :=
    if sellPlatform = Platform.kalshi then
      let potentialProfit := (1 - sellPrice) * quantity
      fees + min (potentialProfit * (7/100)) ((7/100) * quantity)
    else fees
  fees

/-- The fields of an `ArbitrageOpportunity` (`src/types/index.ts`) computed
by `createOpportunity`; the impure `id`, `timestamp` and `expirationTime`
fields are omitted from the model. -/
structure Opportunity where
  eventMapping : EventMapping
  buyPlatform : Platform
  buyPrice : ℚ
  buyQuantity : ℚ
  sellPlatform : Platform
  sellPrice : ℚ
  sellQuantity : ℚ
  grossSpread : ℚ
  estimatedFees : ℚ
  netProfit : ℚ
  maxQuantity : ℚ
  executionRisk : ℚ
deriving DecidableEq, Repr

/-- `ArbitrageDetector.calculateExecutionRisk` (lines 257–269); the `price`
argument is unused in the source as well. -/
def calculateExecutionRisk (cfg : Config) (quantity _price : ℚ) : ℚ :=
  if quantity ≥ cfg.risk.minLiquidityDepth * 2 then 1/10
  else if quantity ≥ cfg.risk.minLiquidityDepth then 3/10
  else 6/10

/-- `ArbitrageDetector.createOpportunity` (lines 223–252), without the
impure `id`/`timestamp`/`expirationTime` fields. -/
def createOpportunity (cfg : Config) (mapping : EventMapping)
    (buyPlatform : Platform) (buyPrice buyQuantity : ℚ)
    (sellPlatform : Platform) (sellPrice sellQuantity : ℚ)
    (grossSpread estimatedFees maxQuantity : ℚ) : Opportunity :=
  { eventMapping := mapping
    buyPlatform := buyPlatform
    buyPrice := buyPrice
    buyQuantity := buyQuantity
    sellPlatform := sellPlatform
    sellPrice := sellPrice
    sellQuantity := sellQuantity
    grossSpread := grossSpread
    estimatedFees := estimatedFees
    netProfit := grossSpread - estimatedFees
    maxQuantity := maxQuantity
    executionRisk := calculateExecutionRisk cfg maxQuantity buyPrice }

/-- `book.bids[0]?.price || 0` (detector lines 117, 119). -/
def bestBidPrice (b : OrderBook) : ℚ :=
  orFalsy (b.bids.head?.map OrderBookLevel.price) 0

/-- `book.asks[0]?.price || 1` (detector lines 118, 120). -/
def bestAskPrice (b : OrderBook) : ℚ :=
  orFalsy (b.asks.head?.map OrderBookLevel.price) 1

/-- `book.bids[0]?.size || 0` (detector lines 123, 125). -/
def bestBidSize (b : OrderBook) : ℚ :=
  orFalsy (b.bids.head?.map OrderBookLevel.size) 0

/-- `book.asks[0]?.size || 0` (detector lines 124, 126). -/
def bestAskSize (b : OrderBook) : ℚ :=
  orFalsy (b.asks.head?.map OrderBookLevel.size) 0

/-- Case 1 of `detectArbitrage` (lines 130–151): buy YES on Polymarket at
the ask, sell YES on Kalshi at the bid. -/
def detectCase1 (cfg : Config) (polymarketBook kalshiBook : OrderBook)
    (mapping : EventMapping) : Option Opportunity :=
  if bestAskPrice polymarketBook < bestBidPrice kalshiBook then
    let spread := bestBidPrice kalshiBook - bestAskPrice polymarketBook
    let maxQuantity := min (bestAskSize polymarketBook) (bestBidSize kalshiBook)
    let fees := estimateFees Platform.polymarket Platform.kalshi
      (bestAskPrice polymarketBook) (bestBidPrice kalshiBook) 1
    if spread > fees + cfg.trading.minProfitThreshold * bestAskPrice polymarketBook then
      some (createOpportunity cfg mapping
        Platform.polymarket (bestAskPrice polymarketBook) (bestAskSize polymarketBook)
        Platform.kalshi (bestBidPrice kalshiBook) (bestBidSize kalshiBook)
        spread fees maxQuantity)
    else none
  else none

/-- Case 2 of `detectArbitrage` (lines 153–179): buy YES on Kalshi at the
ask, sell YES on Polymarket at the bid; if Case 1 already produced an
opportunity, keep the one with the larger `netProfit`. -/
def detectCase2 (cfg : Config) (polymarketBook kalshiBook : OrderBook)
    (mapping : EventMapping) (opportunity : Option Opportunity) : Option Opportunity :=
  if bestAskPrice kalshiBook < bestBidPrice polymarketBook then
    let spread := bestBidPrice polymarketBook - bestAskPrice kalshiBook
    let maxQuantity := min (bestAskSize kalshiBook) (bestBidSize polymarketBook)
    let fees := estimateFees Platform.kalshi Platform.polymarket
      (bestAskPrice kalshiBook) (bestBidPrice polymarketBook) 1
    if spread > fees + cfg.trading.minProfitThreshold * bestAskPrice kalshiBook then
      let newOpportunity := createOpportunity cfg mapping
        Platform.kalshi (bestAskPrice kalshiBook) (bestAskSize kalshiBook)
        Platform.polymarket (bestBidPrice polymarketBook) (bestBidSize polymarketBook)
        spread fees maxQuantity
      match opportunity with
      | none => some newOpportunity
      | some opp =>
        if newOpportunity.netProfit > opp.netProfit then some newOpportunity
        else some opp
    else opportunity
  else opportunity

/-- The final validation block of `detectArbitrage` (lines 181–215): reject
when `netProfit / buyPrice` is below the profit threshold or when
`maxQuantity` is below the liquidity floor. -/
def validateDetected (cfg : Config) : Option Opportunity → Option Opportunity
  | none => none
  | some opp =>
    if opp.netProfit / opp.buyPrice < cfg.trading.minProfitThreshold then none
    else if opp.maxQuantity < cfg.risk.minLiquidityDepth then none
    else some opp

/-- `ArbitrageDetector.detectArbitrage` (lines 107–218).  The caching of the
result in `lastOpportunities` and the logging are side effects outside the
returned value and are not modelled. -/
def detectArbitrage (cfg : Config) (polymarketBook kalshiBook : OrderBook)
    (mapping : EventMapping) : Option Opportunity :=
  validateDetected cfg
    (detectCase2 cfg polymarketBook kalshiBook mapping
      (detectCase1 cfg polymarketBook kalshiBook mapping))

/-- The guard of detection Case 1 as a proposition: the Polymarket ask is
below the Kalshi bid and the spread beats fees plus the profit threshold. -/
def dirAQualifies (cfg : Config) (polymarketBook kalshiBook : OrderBook) : Prop :=
  bestAskPrice polymarketBook < bestBidPrice kalshiBook ∧
  bestBidPrice kalshiBook - bestAskPrice polymarketBook >
    estimateFees Platform.polymarket Platform.kalshi
      (bestAskPrice polymarketBook) (bestBidPrice kalshiBook) 1 +
    cfg.trading.minProfitThreshold * bestAskPrice polymarketBook

/-- The guard of detection Case 2 as a proposition. -/
def dirBQualifies (cfg : Config) (polymarketBook kalshiBook : OrderBook) : Prop :=
  bestAskPrice kalshiBook < bestBidPrice polymarketBook ∧
  bestBidPrice polymarketBook - bestAskPrice kalshiBook >
    estimateFees Platform.kalshi Platform.polymarket
      (bestAskPrice kalshiBook) (bestBidPrice polymarketBook) 1 +
    cfg.trading.minProfitThreshold * bestAskPrice kalshiBook

instance (cfg : Config) (pb kb : OrderBook) : Decidable (dirAQualifies cfg pb kb) :=
  inferInstanceAs (Decidable (And _ _))

instance (cfg : Config) (pb kb : OrderBook) : Decidable (dirBQualifies cfg pb kb) :=
  inferInstanceAs (Decidable (And _ _))

/-- The opportunity Case 1 would build when its guard holds. -/
def dirAOpportunity (cfg : Config) (polymarketBook kalshiBook : OrderBook)
    (mapping : EventMapping) : Opportunity :=
  createOpportunity cfg mapping
    Platform.polymarket (bestAskPrice polymarketBook) (bestAskSize polymarketBook)
    Platform.kalshi (bestBidPrice kalshiBook) (bestBidSize kalshiBook)
    (bestBidPrice kalshiBook - bestAskPrice polymarketBook)
    (estimateFees Platform.polymarket Platform.kalshi
      (bestAskPrice polymarketBook) (bestBidPrice kalshiBook) 1)
    (min (bestAskSize polymarketBook) (bestBidSize kalshiBook))

/-- The opportunity Case 2 would build when its guard holds. -/
def dirBOpportunity (cfg : Config) (polymarketBook kalshiBook : OrderBook)
    (mapping : EventMapping) : Opportunity :=
  createOpportunity cfg mapping
    Platform.kalshi (bestAskPrice kalshiBook) (bestAskSize kalshiBook)
    Platform.polymarket (bestBidPrice polymarketBook) (bestBidSize polymarketBook)
    (bestBidPrice polymarketBook - bestAskPrice kalshiBook)
    (estimateFees Platform.kalshi Platform.polymarket
      (bestAskPrice kalshiBook) (bestBidPrice polymarketBook) 1)
    (min (bestAskSize kalshiBook) (bestBidSize polymarketBook))

/-! ## Circuit breaker (`src/core/circuit-breaker.ts`) -/

/-- `FailureType` from `src/types/index.ts`. -/
inductive FailureType where
  | EXECUTION_FAILURE
  | ASYMMETRIC_EXECUTION
  | CONNECTION_LOST
  | RATE_LIMIT_EXCEEDED
  | DAILY_LOSS_LIMIT
deriving DecidableEq, Repr

/-- The mutable fields of the `CircuitBreaker` class (lines 13–18). -/
structure CBState where
  paused : Bool
  pauseReason : Option String
  pausedAt : Option Int
  consecutiveFailures : Nat
  asymmetricExecutions : Nat
deriving DecidableEq, Repr

/-- The constructor-initialised circuit-breaker state. -/
def CBState.initial : CBState :=
  { paused := false
    pauseReason := none
    pausedAt := none
    consecutiveFailures := 0
    asymmetricExecutions := 0 }

namespace CircuitBreaker

/-- `CircuitBreaker.pause` (lines 88–112): a no-op when already paused,
otherwise sets the flag, reason and timestamp.  The persistence call and the
Telegram alert are side effects tracked by the execution-engine world. -/
def pause (now : Int) (reason : String) (s : CBState) : CBState :=
  if s.paused then s
  else { s with paused := true, pauseReason := some reason, pausedAt := some now }

/-- `CircuitBreaker.recordFailure` (lines 44–73): increments
`consecutiveFailures` for every failure type, additionally counts
asymmetric executions, then evaluates the four auto-pause conditions. -/
def recordFailure (cfg : Config) (now : Int) (t : FailureType) (s : CBState) : CBState :=
  let s := { s with consecutiveFailures := s.consecutiveFailures + 1 }
  let s :=
    if t = FailureType.ASYMMETRIC_EXECUTION then
      { s with asymmetricExecutions := s.asymmetricExecutions + 1 }
    else s
  let s :=
    if s.consecutiveFailures ≥ cfg.risk.maxConsecutiveFailures then
      pause now (toString s.consecutiveFailures ++ " consecutive failures") s
    else s
  let s :=
    if s.asymmetricExecutions ≥ cfg.risk.maxAsymmetricExecutions then
      pause now (toString s.asymmetricExecutions ++
        " asymmetric executions - manual review required") s
    else s
  let s := if t = FailureType.DAILY_LOSS_LIMIT then pause now "Daily loss limit reached" s else s
  let s := if t = FailureType.CONNECTION_LOST then pause now "Connection lost to exchange" s else s
  s

/-- `CircuitBreaker.recordSuccess` (lines 78–83). -/
def recordSuccess (s : CBState) : CBState :=
  { s with consecutiveFailures := 0 }

/-- `CircuitBreaker.resume` (lines 117–140): a no-op when not paused,
otherwise clears the flag, reason, timestamp and both counters. -/
def resume (s : CBState) : CBState :=
  if !s.paused then s
  else
    { paused := false
      pauseReason := none
      pausedAt := none
      consecutiveFailures := 0
      asymmetricExecutions := 0 }

end CircuitBreaker

/-! ## Risk manager ledger (`src/core/risk-manager.ts`) -/

/-- Position side: `'yes' | 'no'`. -/
inductive Side where
  | yes
  | no
deriving DecidableEq, Repr

/-- The fields of `Position` (`src/types/index.ts`) read by the risk
manager; the timestamps are omitted. -/
structure Position where
  id : String
  platform : Platform
  eventId : String
  side : Side
  quantity : ℚ
  avgPrice : ℚ
  currentPrice : ℚ
  unrealizedPnL : ℚ
deriving DecidableEq, Repr

/-- The `positions: Map<string, Position[]>` of `RiskManager`, modelled as
an association list keyed by event id, plus the cached `totalExposure`. -/
structure RiskState where
  positions : List (String × List Position)
  totalExposure : ℚ
deriving DecidableEq, Repr

/-- The constructor-initialised risk-manager state. -/
def RiskState.initial : RiskState :=
  { positions := [], totalExposure := 0 }

/-- `this.positions.get(eventId) || []`. -/
def lookupPositions (entries : List (String × List Position)) (eventId : String) :
    List Position :=
  match entries.find? (fun e => e.1 = eventId) with
  | none => []
  | some e => e.2

/-- `this.positions.set(eventId, ps)`: replace the first entry with this key
or append a fresh one. -/
def setPositions (entries : List (String × List Position)) (eventId : String)
    (ps : List Position) : List (String × List Position) :=
  match entries with
  | [] => [(eventId, ps)]
  | e :: rest =>
    if e.1 = eventId then (eventId, ps) :: rest
    else e :: setPositions rest eventId ps

/-- `RiskManager.recalculateTotalExposure` (lines 291–298): the sum of
`quantity * avgPrice` over every position of every event. -/
def sumExposure (entries : List (String × List Position)) : ℚ :=
  (entries.map (fun e => ((e.2.map (fun p => p.quantity * p.avgPrice)).sum))).sum

namespace RiskManager

/-- `RiskManager.addPosition` (lines 255–269): append the position to its
event's list and recompute the total exposure. -/
def addPosition (p : Position) (s : RiskState) : RiskState :=
  let existing := lookupPositions s.positions p.eventId
  let entries := setPositions s.positions p.eventId (existing ++ [p])
  { positions := entries, totalExposure := sumExposure entries }

/-- `RiskManager.updatePositions` (lines 274–286): clear the map, re-insert
every position grouped by event id, and recompute the total exposure. -/
def updatePositions (ps : List Position) (_s : RiskState) : RiskState :=
  let entries := ps.foldl
    (fun acc p => setPositions acc p.eventId (lookupPositions acc p.eventId ++ [p])) []
  { positions := entries, totalExposure := sumExposure entries }

/-- `RiskManager.calculateOptimalQuantity` (lines 169–193). -/
def calculateOptimalQuantity (cfg : Config) (s : RiskState) (opp : Opportunity) : ℚ :=
  let quantity := min (min opp.buyQuantity opp.sellQuantity) opp.maxQuantity
  let quantity := min quantity cfg.risk.maxQuantityPerTrade
  let remainingExposure := cfg.risk.maxTotalExposure - s.totalExposure
  let quantity :=
    if remainingExposure > 0 then
      min quantity (⌊remainingExposure / opp.buyPrice⌋ : ℚ)
    else quantity
  let quantity := max quantity cfg.risk.minQuantityPerTrade
  (⌊quantity⌋ : ℚ)

end RiskManager

/-- All positions held in the ledger, in entry order. -/
def RiskState.allPositions (s : RiskState) : List Position :=
  (s.positions.map Prod.snd).flatten

/-! ## Execution engine (`src/core/execution-engine.ts`) -/

/-- `OrderResult` (`src/types/index.ts`) as consumed by the engine. -/
structure OrderResult where
  success : Bool
  fillPrice : Option ℚ
  fillQuantity : Option ℚ
  fees : Option ℚ
deriving DecidableEq, Repr

/-- `AlertLevel` from `src/types/index.ts`. -/
inductive AlertLevel where
  | critical
  | high
  | medium
deriving DecidableEq, Repr

/-- One `saveExecution` call (engine lines 413–480), reduced to the fields
relevant here: the persisted `status` string, the optional `notes`, and the
`is_dry_run` flag. -/
structure SavedExecution where
  status : String
  notes : Option String
  isDryRun : Bool
deriving DecidableEq, Repr

/-- `ExecutionResult` (`src/types/index.ts`). -/
structure ExecutionResult where
  success : Bool
  buyExecution : Option OrderResult
  sellExecution : Option OrderResult
  actualProfit : ℚ
  slippage : ℚ
  errors : List String
  circuitBreakerTriggered : Bool
  dryRun : Bool
deriving DecidableEq, Repr

/-- The side-effect sinks the engine touches: the circuit breaker, the
risk-manager ledger, the database rows written by `saveExecution`, the
severities of alerts dispatched through the Telegram alerter
(`alertTradeExecuted` sends `medium`, `alertAsymmetricExecution` sends
`critical`, per `src/core/alerts.ts`), and the `(profit, volume)` pairs
passed to `stateManager.recordSuccessfulTrade`. -/
structure EngineWorld where
  cb : CBState
  risk : RiskState
  executionsSaved : List SavedExecution
  alerts : List AlertLevel
  successfulTrades : List (ℚ × ℚ)
deriving DecidableEq, Repr

/-- `calculateSlippage` from `src/utils/helpers.ts`. -/
def calculateSlippage (expected actual : ℚ) : ℚ :=
  if expected = 0 then 0 else |actual - expected| / expected

/-- `ExecutionEngine.calculateActualProfit` (lines 349–363). -/
def calculateActualProfit (buyExecution sellExecution : OrderResult)
    (quantity : ℚ) : ℚ :=
  let buyPrice := buyExecution.fillPrice.getD 0
  let sellPrice := sellExecution.fillPrice.getD 0
  let buyFees := buyExecution.fees.getD 0
  let sellFees := sellExecution.fees.getD 0
  (sellPrice - buyPrice) * quantity - (buyFees + sellFees)

/-- `ExecutionEngine.recordPositions` (lines 368–408): a YES position for
the buy leg and a NO position for the sell leg, both added to the
risk-manager ledger.  `generateId()` and the timestamps are impure and
modelled as constants. -/
def recordPositions (opp : Opportunity) (quantity : ℚ)
    (buyExecution sellExecution : OrderResult) (risk : RiskState) : RiskState :=
  let buyPosition : Position :=
    { id := ""
      platform := opp.buyPlatform
      eventId := opp.eventMapping.id
      side := Side.yes
      quantity := quantity
      avgPrice := orFalsy buyExecution.fillPrice opp.buyPrice
      currentPrice := orFalsy buyExecution.fillPrice opp.buyPrice
      unrealizedPnL := 0 }
  let sellPosition : Position :=
    { id := ""
      platform := opp.sellPlatform
      eventId := opp.eventMapping.id
      side := Side.no
      quantity := quantity
      avgPrice := orFalsy sellExecution.fillPrice opp.sellPrice
      currentPrice := orFalsy sellExecution.fillPrice opp.sellPrice
      unrealizedPnL := 0 }
  RiskManager.addPosition sellPosition (RiskManager.addPosition buyPosition risk)

/-- `ExecutionEngine.executeDryRun` (lines 272–331). -/
def executeDryRun (cfg : Config) (w : EngineWorld) (opp : Opportunity)
    (quantity : ℚ) : ExecutionResult × EngineWorld :=
  let w :=
    if cfg.trackHypotheticalPnL then
      { w with successfulTrades :=
          w.successfulTrades ++ [(opp.netProfit * quantity, quantity * opp.buyPrice)] }
    else w
  let w := { w with executionsSaved :=
      w.executionsSaved ++ [({ status := "complete", notes := none, isDryRun := true } : SavedExecution)] }
  ({ success := true
     buyExecution := none
     sellExecution := none
     actualProfit := opp.netProfit * quantity
     slippage := 0
     errors := []
     circuitBreakerTriggered := false
     dryRun := true }, w)

/-- `ExecutionEngine.execute` (lines 32–267).  The outcomes of the
risk-manager validation (`riskApproved`, `suggestedQuantity`), of the
asynchronous opportunity revalidation (`stillValid`) and of the two
`Promise.allSettled` leg placements (`buyRes`, `sellRes`; `none` models a
rejected promise) are inputs, since they depend on I/O.  Database writes,
alerts and ledger updates are recorded in the returned `EngineWorld`. -/
def executeEngine (cfg : Config) (w : EngineWorld) (now : Int) (opp : Opportunity)
    (riskApproved : Bool) (suggestedQuantity : Option ℚ) (stillValid : Bool)
    (buyRes sellRes : Option OrderResult) : ExecutionResult × EngineWorld :=
  if w.cb.paused then
    ({ success := false
       buyExecution := none
       sellExecution := none
       actualProfit := 0
       slippage := 0
       errors := ["Circuit breaker active"]
       circuitBreakerTriggered := true
       dryRun := false }, w)
  else
    let quantity := RiskManager.calculateOptimalQuantity cfg w.risk opp
    if !riskApproved then
      ({ success := false
         buyExecution := none
         sellExecution := none
         actualProfit := 0
         slippage := 0
         errors := ["Trade rejected by risk manager"]
         circuitBreakerTriggered := false
         dryRun := false }, w)
    else
      let finalQuantity := orFalsy suggestedQuantity quantity
      if !stillValid then
        ({ success := false
           buyExecution := none
           sellExecution := none
           actualProfit := 0
           slippage := 0
           errors := ["Opportunity no longer valid"]
           circuitBreakerTriggered := false
           dryRun := false }, w)
      else if cfg.operatingMode = OperatingMode.dry_run then
        executeDryRun cfg w opp finalQuantity
      else
        let buySuccess := (buyRes.map OrderResult.success).getD false
        let sellSuccess := (sellRes.map OrderResult.success).getD false
        if buySuccess && sellSuccess then
          match buyRes, sellRes with
          | some buyExecution, some sellExecution =>
            let actualProfit := calculateActualProfit buyExecution sellExecution finalQuantity
            let slippage := calculateSlippage (opp.netProfit * finalQuantity) actualProfit
            let w := { w with cb := CircuitBreaker.recordSuccess w.cb }
            let w := { w with successfulTrades :=
                w.successfulTrades ++ [(actualProfit, finalQuantity * opp.buyPrice)] }
            let w := { w with risk := recordPositions opp finalQuantity buyExecution sellExecution w.risk }
            let w := { w with executionsSaved :=
                w.executionsSaved ++ [({ status := "complete", notes := none, isDryRun := false } : SavedExecution)] }
            let w := { w with alerts := w.alerts ++ [AlertLevel.medium] }
            ({ success := true
               buyExecution := some buyExecution
               sellExecution := some sellExecution
               actualProfit := actualProfit
               slippage := slippage
               errors := []
               circuitBreakerTriggered := false
               dryRun := false }, w)
          | _, _ =>
            -- unreachable: `buySuccess && sellSuccess` forces both legs fulfilled
            ({ success := false
               buyExecution := none
               sellExecution := none
               actualProfit := 0
               slippage := 0
               errors := []
               circuitBreakerTriggered := false
               dryRun := false }, w)
        else if !buySuccess && !sellSuccess then
          ({ success := false
             buyExecution := buyRes
             sellExecution := sellRes
             actualProfit := 0
             slippage := 0
             errors := ["Both FOK orders rejected - opportunity expired"]
             circuitBreakerTriggered := false
             dryRun := false }, w)
        else
          let w := { w with cb :=
              CircuitBreaker.recordFailure cfg now FailureType.ASYMMETRIC_EXECUTION w.cb }
          let w := { w with alerts := w.alerts ++ [AlertLevel.critical] }
          let w := { w with executionsSaved :=
              w.executionsSaved ++
                [({ status := "failed", notes := some "Asymmetric execution", isDryRun := false } : SavedExecution)] }
          ({ success := false
             buyExecution := buyRes
             sellExecution := sellRes
             actualProfit := 0
             slippage := 0
             errors := ["Asymmetric execution - circuit breaker triggered"]
             circuitBreakerTriggered := true
             dryRun := false }, w)

/-! ## Text helpers (`src/utils/helpers.ts`) and the event matcher
(`src/core/event-matcher.ts`) -/

/-- JavaScript's `\w` character class (ASCII word characters). -/
def isWordChar (c : Char) : Bool :=
  c.isAlphanum || c = '_'

/-- JavaScript's `\s` character class, restricted to the ASCII whitespace
characters that occur in market titles. -/
def isSpaceChar (c : Char) : Bool :=
  c = ' ' || c = '\t' || c = '\n' || c = '\r'

/-- Collapse every run of whitespace to a single space
(`.replace(/\s+/g, ' ')`); the boolean records whether the previous kept
character was part of a whitespace run. -/
def collapseSpaces : List Char → Bool → List Char
  | [], _ => []
  | c :: rest, prev =>
    if isSpaceChar c then
      if prev then collapseSpaces rest true
      else ' ' :: collapseSpaces rest true
    else c :: collapseSpaces rest false

/-- `.trim()` on a character list: drop whitespace from both ends. -/
def trimChars (l : List Char) : List Char :=
  ((l.dropWhile isSpaceChar).reverse.dropWhile isSpaceChar).reverse

/-- `normalize` from `src/utils/helpers.ts`: lowercase, strip everything
but word characters and whitespace, collapse whitespace, trim. -/
def normalize (text : String) : String :=
  let lowered := text.toList.map Char.toLower
  let stripped := lowered.filter (fun c => isWordChar c || isSpaceChar c)
  String.mk (trimChars (collapseSpaces stripped false))

/-- One inner step of the `levenshteinDistance` dynamic programme: given the
remaining characters of `a`, the remaining cells of the previous row
(headed by the diagonal cell) and the cell just computed to the left,
produce the rest of the current row. -/
def levRow (cb : Char) : List Char → List Nat → Nat → List Nat
  | [], _, _ => []
  | ca :: rest, diag :: tail, leftv =>
    let up := tail.headD 0
    let v := if cb = ca then diag else 1 + min diag (min leftv up)
    v :: levRow cb rest tail v
  | _ :: _, [], _ => []

/-- `levenshteinDistance` from `src/utils/helpers.ts` (row-by-row dynamic
programme; row 0 is `0, 1, …, |a|` and row `i` starts with `i`). -/
def levenshteinDistance (a b : String) : Nat :=
  let la := a.toList
  let row0 := List.range (la.length + 1)
  let result := b.toList.foldl
    (fun (acc : Nat × List Nat) cb =>
      let i := acc.1 + 1
      (i, i :: levRow cb la acc.2 i))
    (0, row0)
  result.2.getLastD 0

/-- `levenshteinSimilarity` from `src/utils/helpers.ts`:
`1 − distance / max(|a|, |b|)`, and `1` when both strings are empty. -/
def levenshteinSimilarity (a b : String) : ℚ :=
  let maxLength := max a.length b.length
  if maxLength = 0 then 1
  else 1 - (levenshteinDistance a b : ℚ) / (maxLength : ℚ)

/-- `datesMatch` from `src/utils/helpers.ts`:
`Math.abs(date1 − date2) ≤ toleranceMs` on millisecond timestamps. -/
def datesMatch (date1 date2 toleranceMs : Int) : Bool :=
  |date1 - date2| ≤ toleranceMs

/-- `sub.isPrefixOf l` on characters (used for JavaScript's
`String.includes`). -/
def charsPrefix : List Char → List Char → Bool
  | [], _ => true
  | _ :: _, [] => false
  | c :: cs, d :: ds => c = d && charsPrefix cs ds

/-- JavaScript's `haystack.includes(needle)`. -/
def strIncludes (haystack needle : String) : Bool :=
  go needle.toList haystack.toList
where
  go (needle : List Char) : List Char → Bool
    | [] => charsPrefix needle []
    | c :: rest => charsPrefix needle (c :: rest) || go needle rest

/-- The `CATEGORY_MAPPINGS` table of `src/core/event-matcher.ts`. -/
def CATEGORY_MAPPINGS : List (String × List String) :=
  [ ("politics", ["politics", "elections", "government", "political"])
  , ("economics", ["economics", "fed", "economy", "financial", "finance"])
  , ("crypto", ["crypto", "cryptocurrency", "bitcoin", "btc", "ethereum", "eth"])
  , ("sports", ["sports", "nfl", "nba", "mlb", "soccer", "football"])
  , ("entertainment", ["entertainment", "media", "movies", "oscars", "awards"])
  , ("science", ["science", "tech", "technology", "space", "climate"]) ]

/-- `EventMatcher.categoriesCompatible` (lines 575–592): find the first
category group containing the Kalshi category and check the Polymarket
title against the group's keywords; unknown categories are allowed. -/
def categoriesCompatible (polymarketTitle kalshiCategory : String) : Bool :=
  let normalizedTitle := normalize polymarketTitle
  let normalizedCategory := normalize kalshiCategory
  go normalizedTitle normalizedCategory CATEGORY_MAPPINGS
where
  go (normalizedTitle normalizedCategory : String) :
      List (String × List String) → Bool
    | [] => true
    | (_, keywords) :: rest =>
      if keywords.any (fun kw => strIncludes normalizedCategory kw) then
        keywords.any (fun kw => strIncludes normalizedTitle kw)
      else go normalizedTitle normalizedCategory rest

/-- The fields of `PolymarketMarket` read by the matcher. -/
structure PolymarketMarket where
  conditionId : String
  title : String
  endDate : Int
deriving DecidableEq, Repr

/-- The fields of `KalshiMarket` read by the matcher. -/
structure KalshiMarket where
  ticker : String
  title : String
  category : String
  expirationTime : Int
deriving DecidableEq, Repr

/-- `EventMatcher.createMapping` (lines 597–622); `generateId()` and the
creation timestamps are impure and modelled as constants. -/
def createMapping (polymarket : PolymarketMarket) (kalshi : KalshiMarket)
    (confidence : ℚ) (method : MatchMethod) : EventMapping :=
  { id := ""
    polymarketConditionId := polymarket.conditionId
    kalshiTicker := kalshi.ticker
    eventDescription := polymarket.title
    matchConfidence := confidence
    resolutionDate := polymarket.endDate
    matchMethod := method
    outcomeMapping := [("Yes", "yes"), ("No", "no")]
    isActive := true
    createdAt := 0
    updatedAt := 0 }

/-- The candidate loop of `EventMatcher.findKalshiEquivalent`
(lines 508–567): exact normalized-title equality returns immediately at
confidence 1.0; otherwise a fuzzy candidate above the similarity threshold
is kept unless the date guard or the category guard rejects it, in which
case the loop continues. -/
def findMatchLoop (cfg : Config) (normalizedPolyTitle : String)
    (polymarket : PolymarketMarket) : List KalshiMarket → Option EventMapping
  | [] => none
  | kalshi :: rest =>
    let normalizedKalshiTitle := normalize kalshi.title
    if normalizedPolyTitle = normalizedKalshiTitle then
      some (createMapping polymarket kalshi 1 MatchMethod.exact)
    else
      let similarity := levenshteinSimilarity normalizedPolyTitle normalizedKalshiTitle
      if similarity ≥ cfg.matching.fuzzyMatchMinSimilarity then
        if cfg.matching.requireDateValidation &&
            !(datesMatch polymarket.endDate kalshi.expirationTime (24 * 60 * 60 * 1000)) then
          findMatchLoop cfg normalizedPolyTitle polymarket rest
        else if cfg.matching.requireCategoryMatch &&
            !(categoriesCompatible polymarket.title kalshi.category) then
          findMatchLoop cfg normalizedPolyTitle polymarket rest
        else
          some (createMapping polymarket kalshi similarity MatchMethod.fuzzy)
      else findMatchLoop cfg normalizedPolyTitle polymarket rest

/-- `EventMatcher.findKalshiEquivalent` (lines 493–570).  The
`cachedMappings` map is passed explicitly; database persistence of a fresh
mapping is a side effect outside the returned value. -/
def findKalshiEquivalent (cfg : Config)
    (cachedMappings : List (String × EventMapping))
    (polymarket : PolymarketMarket) (kalshiMarkets : List KalshiMarket) :
    Option EventMapping :=
  match (cachedMappings.find? (fun e => e.1 = polymarket.conditionId)).map Prod.snd with
  | some cached =>
    if cached.isActive then some cached
    else findMatchLoop cfg (normalize polymarket.title) polymarket kalshiMarkets
  | none => findMatchLoop cfg (normalize polymarket.title) polymarket kalshiMarkets

/-- `EventMatcher.canTradeOnMapping` (lines 735–748): reject exactly when
the confidence is below the configured minimum. -/
def canTradeOnMapping (cfg : Config) (mapping : EventMapping) : Bool :=
  if mapping.matchConfidence < cfg.matching.minConfidenceThreshold then false
  else true

/-! ## Helper lemmas -/

lemma poly_ne_kalshi : Platform.polymarket ≠ Platform.kalshi := by decide

lemma kalshi_ne_poly : Platform.kalshi ≠ Platform.polymarket := by decide

lemma pause_paused (now : Int) (r : String) (s : CBState) :
    (CircuitBreaker.pause now r s).paused = true := by
  unfold CircuitBreaker.pause
  split
  · assumption
  · rfl

lemma pause_counters (now : Int) (r : String) (s : CBState) :
    (CircuitBreaker.pause now r s).consecutiveFailures = s.consecutiveFailures ∧
    (CircuitBreaker.pause now r s).asymmetricExecutions = s.asymmetricExecutions := by
  unfold CircuitBreaker.pause
  split <;> exact ⟨rfl, rfl⟩

/-- A `RATE_LIMIT_EXCEEDED` failure below both auto-pause thresholds only
increments the consecutive-failure counter. -/
lemma recordFailure_rateLimit_eq (cfg : Config) (now : Int) (s : CBState)
    (h1 : s.consecutiveFailures + 1 < cfg.risk.maxConsecutiveFailures)
    (h2 : s.asymmetricExecutions < cfg.risk.maxAsymmetricExecutions) :
    CircuitBreaker.recordFailure cfg now FailureType.RATE_LIMIT_EXCEEDED s =
      { s with consecutiveFailures := s.consecutiveFailures + 1 } := by
  unfold CircuitBreaker.recordFailure
  simp only [reduceCtorEq, if_false, if_neg (by omega : ¬ s.consecutiveFailures + 1 ≥
    cfg.risk.maxConsecutiveFailures), if_neg (by omega : ¬ s.asymmetricExecutions ≥
    cfg.risk.maxAsymmetricExecutions)]

/-- A `RATE_LIMIT_EXCEEDED` failure that reaches the consecutive-failure
threshold pauses the breaker. -/
lemma recordFailure_rateLimit_pauses (cfg : Config) (now : Int) (s : CBState)
    (h1 : s.consecutiveFailures + 1 ≥ cfg.risk.maxConsecutiveFailures) :
    (CircuitBreaker.recordFailure cfg now FailureType.RATE_LIMIT_EXCEEDED s).paused = true := by
  unfold CircuitBreaker.recordFailure
  simp only [reduceCtorEq, if_false, if_pos h1]
  split
  · exact pause_paused _ _ _
  · exact pause_paused _ _ _

/-! ### C6 -/

/-- **C6** (amended).  A `RateLimitExceeded` failure triggers no
type-specific auto-pause, but `record_failure` still increments
`consecutive_failures`, so: a sequence of `RateLimitExceeded` failures
leaves an unpaused breaker unpaused only while the consecutive-failure
count stays below `max_consecutive_failures` (and the asymmetric count is
below its threshold); the failure that reaches the consecutive-failure
threshold pauses the breaker. -/
theorem rateLimit_pause_behaviour :
    (∀ (cfg : Config) (now : Int) (n : Nat) (s : CBState),
      s.paused = false →
      s.consecutiveFailures + n < cfg.risk.maxConsecutiveFailures →
      s.asymmetricExecutions < cfg.risk.maxAsymmetricExecutions →
      (((fun t => CircuitBreaker.recordFailure cfg now FailureType.RATE_LIMIT_EXCEEDED t)^[n]) s).paused
        = false) ∧
    (∀ (cfg : Config) (now : Int) (s : CBState),
      s.consecutiveFailures + 1 ≥ cfg.risk.maxConsecutiveFailures →
      (CircuitBreaker.recordFailure cfg now FailureType.RATE_LIMIT_EXCEEDED s).paused = true) := by
  constructor
  · intro cfg now n
    induction n with
    | zero => intro s hp _ _; simpa using hp
    | succ k ih =>
      intro s hp hc ha
      rw [Function.iterate_succ_apply]
      have hc1 : s.consecutiveFailures + 1 < cfg.risk.maxConsecutiveFailures := by omega
      rw [recordFailure_rateLimit_eq cfg now s hc1 ha]
      exact ih _ hp (by simpa using by omega) (by simpa using ha)
  · intro cfg now s h
    exact recordFailure_rateLimit_pauses cfg now s h

/-- Witness for C6 (amended): from a fresh breaker, two rate-limit failures
leave it unpaused under the default thresholds (max 3), and a state with
two prior consecutive failures is paused by the next one. -/
theorem rateLimit_pause_behaviour_witness :
    ((fun t => CircuitBreaker.recordFailure defaultConfig 0 FailureType.RATE_LIMIT_EXCEEDED t)^[2]
      CBState.initial).paused = false ∧
    (CircuitBreaker.recordFailure defaultConfig 0 FailureType.RATE_LIMIT_EXCEEDED
      { CBState.initial with consecutiveFailures := 2 }).paused = true :=
  ⟨rateLimit_pause_behaviour.1 defaultConfig 0 2 CBState.initial rfl (by norm_num [CBState.initial, defaultConfig])
      (by norm_num [CBState.initial, defaultConfig]),
   rateLimit_pause_behaviour.2 defaultConfig 0 _ (by norm_num [CBState.initial, defaultConfig])⟩

/-- **C6** counterexample: starting from the fresh (unpaused) breaker, a
sequence of three `RateLimitExceeded` failures pauses the breaker under the
default configuration, so the breaker does not stay unpaused for every such
sequence. -/
theorem rateLimit_three_failures_pause :
    CBState.initial.paused = false ∧
    ((fun t => CircuitBreaker.recordFailure defaultConfig 0 FailureType.RATE_LIMIT_EXCEEDED t)^[3]
      CBState.initial).paused = true := by
  constructor
  · rfl
  · decide

/-! ### C7 -/

/-- **C7** (confirmed).  While the breaker is paused, `pause(r)` changes
neither the stored reason nor the `paused_at` timestamp (and the breaker
stays paused), and `resume()` resets both failure counters to zero and
clears the paused flag. -/
theorem pause_idempotent_resume_clears (s : CBState) (now : Int) (r : String)
    (h : s.paused = true) :
    ((CircuitBreaker.pause now r s).pauseReason = s.pauseReason ∧
     (CircuitBreaker.pause now r s).pausedAt = s.pausedAt ∧
     (CircuitBreaker.pause now r s).paused = true) ∧
    ((CircuitBreaker.resume s).consecutiveFailures = 0 ∧
     (CircuitBreaker.resume s).asymmetricExecutions = 0 ∧
     (CircuitBreaker.resume s).paused = false) := by
  unfold CircuitBreaker.pause CircuitBreaker.resume
  rw [if_pos h]
  simp [h]

/-- Witness for C7 at a concrete paused state. -/
theorem pause_idempotent_resume_clears_witness :
    CBState.paused
        { paused := true, pauseReason := some "manual", pausedAt := some 5,
          consecutiveFailures := 2, asymmetricExecutions := 1 } = true ∧
    ((CircuitBreaker.pause 9 "again"
        { paused := true, pauseReason := some "manual", pausedAt := some 5,
          consecutiveFailures := 2, asymmetricExecutions := 1 }).pauseReason = some "manual" ∧
     (CircuitBreaker.resume
        { paused := true, pauseReason := some "manual", pausedAt := some 5,
          consecutiveFailures := 2, asymmetricExecutions := 1 }).consecutiveFailures = 0) := by
  refine ⟨rfl, ?_, ?_⟩
  · exact (pause_idempotent_resume_clears _ 9 "again" rfl).1.1
  · exact (pause_idempotent_resume_clears
      { paused := true, pauseReason := some "manual", pausedAt := some 5,
        consecutiveFailures := 2, asymmetricExecutions := 1 } 9 "again" rfl).2.1

/-! ### C2 -/

/-- An inactive mapping at full confidence, for the C2 counterexample. -/
def inactiveMapping : EventMapping :=
  { id := "m-inactive"
    polymarketConditionId := "poly-9"
    kalshiTicker := "KALSHI-9"
    eventDescription := "Inactive"
    matchConfidence := 1
    resolutionDate := 0
    matchMethod := MatchMethod.manual
    outcomeMapping := [("Yes", "yes"), ("No", "no")]
    isActive := false
    createdAt := 0
    updatedAt := 0 }

/-- **C2** counterexample: `canTradeOnMapping` ignores `isActive`.  For an
inactive mapping of confidence 1.0 it returns `true`, so the claimed
equivalence `can_trade(m) ⇔ (m.active ∧ m.confidence ≥ threshold)` fails. -/
theorem canTrade_ignores_active :
    ¬ (canTradeOnMapping defaultConfig inactiveMapping = true ↔
        (inactiveMapping.isActive = true ∧
          defaultConfig.matching.minConfidenceThreshold ≤ inactiveMapping.matchConfidence)) := by
  intro h
  have : inactiveMapping.isActive = true :=
    (h.mp (by norm_num [canTradeOnMapping, defaultConfig, inactiveMapping])).1
  simp [inactiveMapping] at this

/-- **C2** (amended).  `canTradeOnMapping` returns `true` exactly when the
mapping's confidence reaches the configured minimum-confidence threshold
(default 0.95); it does not consult `isActive` — inactive mappings are
screened out separately by `getActiveMappings` before this check. -/
theorem canTrade_iff_confidence (cfg : Config) (m : EventMapping) :
    canTradeOnMapping cfg m = true ↔
      cfg.matching.minConfidenceThreshold ≤ m.matchConfidence := by
  unfold canTradeOnMapping
  split
  · next h => simp [not_le.mpr h]
  · next h => simp [not_lt.mp h]

/-! ### C8 -/

/-- **C8** (confirmed).  The fee estimate is monotone non-decreasing in the
quantity (for prices in `[0, 1]`), and, for a Kalshi (V2) sell leg, monotone
non-decreasing in `(1 − sell_price)`; moreover the V2 sell term equals
`min(7% · (1 − sell_price) · q, 0.07 · q)`. -/
theorem estimateFees_monotone :
    (∀ (bp sp : Platform) (b s q q' : ℚ), 0 ≤ b → s ≤ 1 → 0 ≤ q → q ≤ q' →
      estimateFees bp sp b s q ≤ estimateFees bp sp b s q') ∧
    (∀ (bp : Platform) (b s₁ s₂ q : ℚ), 0 ≤ q → 1 - s₁ ≤ 1 - s₂ →
      estimateFees bp Platform.kalshi b s₁ q ≤ estimateFees bp Platform.kalshi b s₂ q) ∧
    (∀ (bp : Platform) (b s q : ℚ),
      estimateFees bp Platform.kalshi b s q =
        (if bp = Platform.polymarket then b * q * (2/100) else 0) +
          min ((1 - s) * q * (7/100)) ((7/100) * q)) := by
  refine ⟨?_, ?_, ?_⟩
  · intro bp sp b s q q' hb hs hq hqq
    have h1s : (0:ℚ) ≤ 1 - s := by linarith
    cases bp <;> cases sp <;>
      simp only [estimateFees, reduceCtorEq, if_true, if_false, ite_true, ite_false, zero_add]
    all_goals gcongr
  · intro bp b s₁ s₂ q hq h12
    cases bp <;>
      simp only [estimateFees, reduceCtorEq, if_true, if_false, ite_true, ite_false, zero_add]
    all_goals gcongr
  · intro bp b s q
    cases bp <;>
      simp [estimateFees]

/-- Witness for C8 at concrete values: fees at quantity 10 do not exceed
fees at quantity 20, a lower sell price (larger potential payout) does not
decrease the Kalshi sell fee, and the decomposition holds at `q = 10`. -/
theorem estimateFees_monotone_witness :
    estimateFees Platform.polymarket Platform.kalshi (42/100) (50/100) 10 ≤
      estimateFees Platform.polymarket Platform.kalshi (42/100) (50/100) 20 ∧
    estimateFees Platform.polymarket Platform.kalshi (42/100) (60/100) 10 ≤
      estimateFees Platform.polymarket Platform.kalshi (42/100) (50/100) 10 ∧
    estimateFees Platform.polymarket Platform.kalshi (42/100) (50/100) 10 =
      (if (Platform.polymarket : Platform) = Platform.polymarket
        then (42/100 : ℚ) * 10 * (2/100) else 0) +
        min ((1 - 50/100) * 10 * (7/100)) ((7/100) * 10) :=
  ⟨estimateFees_monotone.1 Platform.polymarket Platform.kalshi (42/100) (50/100) 10 20
      (by norm_num) (by norm_num) (by norm_num) (by norm_num),
   estimateFees_monotone.2.1 Platform.polymarket (42/100) (60/100) (50/100) 10
      (by norm_num) (by norm_num),
   estimateFees_monotone.2.2 Platform.polymarket (42/100) (50/100) 10⟩

/-! ### C9 -/

/-- `sumExposure` is the exposure sum over the flattened ledger. -/
lemma sumExposure_eq_allPositions (entries : List (String × List Position)) :
    sumExposure entries =
      (((entries.map Prod.snd).flatten).map (fun p => p.quantity * p.avgPrice)).sum := by
  induction entries with
  | nil => simp [sumExposure]
  | cons e rest ih =>
    simp [sumExposure, List.flatten_cons, List.map_append, List.sum_append] at *
    exact ih

/-- Looking up the key just written returns the written value. -/
lemma lookup_set_self (entries : List (String × List Position)) (k : String)
    (v : List Position) :
    lookupPositions (setPositions entries k v) k = v := by
  induction entries with
  | nil => simp [setPositions, lookupPositions]
  | cons e rest ih =>
    by_cases h : e.1 = k
    · simp [setPositions, lookupPositions, h]
    · simp only [setPositions, if_neg h]
      simpa [lookupPositions, List.find?, h] using ih

/-- Looking up a different key is unaffected by a write. -/
lemma lookup_set_other (entries : List (String × List Position)) (k k' : String)
    (v : List Position) (h : k' ≠ k) :
    lookupPositions (setPositions entries k v) k' = lookupPositions entries k' := by
  induction entries with
  | nil => simp [setPositions, lookupPositions, List.find?, Ne.symm h]
  | cons e rest ih =>
    by_cases he : e.1 = k
    · simp [setPositions, lookupPositions, List.find?, he, Ne.symm h]
    · by_cases he' : e.1 = k'
      · simp only [setPositions, if_neg he]
        simp [lookupPositions, List.find?, he']
      · simp only [setPositions, if_neg he]
        simpa [lookupPositions, List.find?, he'] using ih

/-- Appending one position to its event's list adds its exposure. -/
lemma sumExposure_set_append (entries : List (String × List Position)) (p : Position) :
    sumExposure (setPositions entries p.eventId (lookupPositions entries p.eventId ++ [p])) =
      sumExposure entries + p.quantity * p.avgPrice := by
  induction entries with
  | nil => simp [setPositions, lookupPositions, sumExposure]
  | cons e rest ih =>
    by_cases h : e.1 = p.eventId
    · simp [setPositions, lookupPositions, List.find?, h, sumExposure, List.map_append]
      ring
    · simp only [setPositions, if_neg h]
      have hl : lookupPositions (e :: rest) p.eventId = lookupPositions rest p.eventId := by
        simp [lookupPositions, List.find?, h]
      rw [hl]
      simp only [sumExposure, List.map_cons, List.sum_cons] at *
      rw [ih]
      ring

/-- The exposure invariant of the risk-manager ledger. -/
def exposureInvariant (s : RiskState) : Prop :=
  s.totalExposure = ((s.allPositions).map (fun p => p.quantity * p.avgPrice)).sum

lemma addPosition_invariant (p : Position) (s : RiskState) :
    exposureInvariant (RiskManager.addPosition p s) := by
  unfold exposureInvariant RiskManager.addPosition RiskState.allPositions
  exact sumExposure_eq_allPositions _

/-- The rebuilt ledger of `updatePositions` groups the input positions by
event id, preserving order. -/
lemma updatePositions_lookup_aux (X : List Position)
    (acc : List (String × List Position)) (eid : String) :
    lookupPositions
        (X.foldl (fun a p => setPositions a p.eventId (lookupPositions a p.eventId ++ [p])) acc)
        eid =
      lookupPositions acc eid ++ X.filter (fun p => p.eventId = eid) := by
  induction X generalizing acc with
  | nil => simp
  | cons p rest ih =>
    rw [List.foldl_cons, ih]
    by_cases h : p.eventId = eid
    · rw [h, lookup_set_self]
      simp [List.filter, h]
    · rw [lookup_set_other _ _ _ _ (fun he => h he.symm)]
      simp [List.filter, h]

/-- The rebuilt ledger's exposure is the exposure of the input list. -/
lemma updatePositions_exposure_aux (X : List Position)
    (acc : List (String × List Position)) :
    sumExposure
        (X.foldl (fun a p => setPositions a p.eventId (lookupPositions a p.eventId ++ [p])) acc) =
      sumExposure acc + (X.map (fun p => p.quantity * p.avgPrice)).sum := by
  induction X generalizing acc with
  | nil => simp
  | cons p rest ih =>
    rw [List.foldl_cons, ih, sumExposure_set_append]
    simp [add_assoc]

/-- **C9** (confirmed).  The risk manager's total exposure equals the sum
of `quantity × avg_price` over all ledger positions after any sequence of
`addPosition` calls from the fresh state, and `updatePositions X` replaces
the ledger by exactly the positions of `X` (grouped by event id, in order)
with total exposure `Σ_{p ∈ X} p.quantity × p.avgPrice`. -/
theorem ledger_consistency :
    (∀ ps : List Position,
      exposureInvariant (ps.foldl (fun s p => RiskManager.addPosition p s) RiskState.initial)) ∧
    (∀ (X : List Position) (s : RiskState) (eid : String),
      lookupPositions (RiskManager.updatePositions X s).positions eid =
        X.filter (fun p => p.eventId = eid)) ∧
    (∀ (X : List Position) (s : RiskState),
      (RiskManager.updatePositions X s).totalExposure =
        (X.map (fun p => p.quantity * p.avgPrice)).sum) := by
  refine ⟨?_, ?_, ?_⟩
  · intro ps
    induction ps using List.reverseRecOn with
    | nil => simp [exposureInvariant, RiskState.initial, RiskState.allPositions]
    | append_singleton rest p _ =>
      rw [List.foldl_append, List.foldl_cons, List.foldl_nil]
      exact addPosition_invariant p _
  · intro X s eid
    unfold RiskManager.updatePositions
    simpa using updatePositions_lookup_aux X [] eid
  · intro X s
    unfold RiskManager.updatePositions
    simpa [sumExposure] using updatePositions_exposure_aux X []

/-! ### Detector lemmas -/

lemma detectCase1_eq_some {cfg : Config} {pb kb : OrderBook} {m : EventMapping}
    (h : dirAQualifies cfg pb kb) :
    detectCase1 cfg pb kb m = some (dirAOpportunity cfg pb kb m) := by
  unfold detectCase1 dirAOpportunity
  rw [if_pos h.1, if_pos h.2]

lemma detectCase1_eq_none {cfg : Config} {pb kb : OrderBook} {m : EventMapping}
    (h : ¬ dirAQualifies cfg pb kb) :
    detectCase1 cfg pb kb m = none := by
  unfold detectCase1
  unfold dirAQualifies at h
  push_neg at h
  split
  · next h1 => rw [if_neg (by simpa using not_lt.mpr (h h1))]
  · rfl

lemma detectCase1_some {cfg : Config} {pb kb : OrderBook} {m : EventMapping}
    {opp : Opportunity} (h : detectCase1 cfg pb kb m = some opp) :
    opp = dirAOpportunity cfg pb kb m ∧ dirAQualifies cfg pb kb := by
  by_cases hq : dirAQualifies cfg pb kb
  · rw [detectCase1_eq_some hq] at h
    exact ⟨(Option.some.inj h).symm, hq⟩
  · rw [detectCase1_eq_none hq] at h
    cases h

lemma detectCase2_eq_none {cfg : Config} {pb kb : OrderBook} {m : EventMapping}
    (h : ¬ dirBQualifies cfg pb kb) :
    detectCase2 cfg pb kb m none = none := by
  unfold detectCase2
  unfold dirBQualifies at h
  push_neg at h
  split
  · next h1 => rw [if_neg (by simpa using not_lt.mpr (h h1))]
  · rfl

lemma detectCase2_eq_of_qualifies {cfg : Config} {pb kb : OrderBook} {m : EventMapping}
    (h : dirBQualifies cfg pb kb) (o : Option Opportunity) :
    detectCase2 cfg pb kb m o =
      (match o with
        | none => some (dirBOpportunity cfg pb kb m)
        | some opp =>
          if (dirBOpportunity cfg pb kb m).netProfit > opp.netProfit
          then some (dirBOpportunity cfg pb kb m) else some opp) := by
  unfold detectCase2 dirBOpportunity
  rw [if_pos h.1, if_pos h.2]

lemma detectCase2_some {cfg : Config} {pb kb : OrderBook} {m : EventMapping}
    {o : Option Opportunity} {opp : Opportunity}
    (h : detectCase2 cfg pb kb m o = some opp) :
    (opp = dirBOpportunity cfg pb kb m ∧ dirBQualifies cfg pb kb) ∨ o = some opp := by
  by_cases hq : dirBQualifies cfg pb kb
  · rw [detectCase2_eq_of_qualifies hq] at h
    match o with
    | none => exact Or.inl ⟨(Option.some.inj h).symm, hq⟩
    | some prev =>
      simp only at h
      split at h
      · exact Or.inl ⟨(Option.some.inj h).symm, hq⟩
      · exact Or.inr h
  · unfold detectCase2 at h
    unfold dirBQualifies at hq
    push_neg at hq
    split at h
    · next h1 =>
      rw [if_neg (by simpa using not_lt.mpr (hq h1))] at h
      exact Or.inr h
    · exact Or.inr h

lemma validateDetected_some {cfg : Config} {o : Option Opportunity} {opp : Opportunity}
    (h : validateDetected cfg o = some opp) :
    o = some opp ∧
      ¬ opp.netProfit / opp.buyPrice < cfg.trading.minProfitThreshold ∧
      ¬ opp.maxQuantity < cfg.risk.minLiquidityDepth := by
  match o with
  | none => cases h
  | some x =>
    simp only [validateDetected] at h
    by_cases h1 : x.netProfit / x.buyPrice < cfg.trading.minProfitThreshold
    · rw [if_pos h1] at h; cases h
    · rw [if_neg h1] at h
      by_cases h2 : x.maxQuantity < cfg.risk.minLiquidityDepth
      · rw [if_pos h2] at h; cases h
      · rw [if_neg h2] at h
        cases Option.some.inj h
        exact ⟨rfl, h1, h2⟩

/-- The profitability-and-venue property a returned opportunity carries. -/
lemma dirAOpportunity_property {cfg : Config} {pb kb : OrderBook} {m : EventMapping}
    (h : dirAQualifies cfg pb kb) :
    (dirAOpportunity cfg pb kb m).buyPlatform ≠ (dirAOpportunity cfg pb kb m).sellPlatform ∧
    (dirAOpportunity cfg pb kb m).sellPrice - (dirAOpportunity cfg pb kb m).buyPrice >
      (dirAOpportunity cfg pb kb m).estimatedFees +
        cfg.trading.minProfitThreshold * (dirAOpportunity cfg pb kb m).buyPrice := by
  refine ⟨by simp [dirAOpportunity, createOpportunity, poly_ne_kalshi], ?_⟩
  simpa [dirAOpportunity, createOpportunity] using h.2

lemma dirBOpportunity_property {cfg : Config} {pb kb : OrderBook} {m : EventMapping}
    (h : dirBQualifies cfg pb kb) :
    (dirBOpportunity cfg pb kb m).buyPlatform ≠ (dirBOpportunity cfg pb kb m).sellPlatform ∧
    (dirBOpportunity cfg pb kb m).sellPrice - (dirBOpportunity cfg pb kb m).buyPrice >
      (dirBOpportunity cfg pb kb m).estimatedFees +
        cfg.trading.minProfitThreshold * (dirBOpportunity cfg pb kb m).buyPrice := by
  refine ⟨by simp [dirBOpportunity, createOpportunity, kalshi_ne_poly], ?_⟩
  simpa [dirBOpportunity, createOpportunity] using h.2

/-! ### C4 -/

/-- **C4** (confirmed).  Every opportunity the detector emits buys and sells
on different venues, has `sell_price − buy_price` strictly above the
estimated fees plus `min_profit_threshold × buy_price`, and passes the
liquidity floor; and when neither direction's guard holds the detector
returns `none`. -/
theorem detector_direction (cfg : Config) (pb kb : OrderBook) (m : EventMapping) :
    (∀ opp : Opportunity, detectArbitrage cfg pb kb m = some opp →
      opp.buyPlatform ≠ opp.sellPlatform ∧
      opp.sellPrice - opp.buyPrice >
        opp.estimatedFees + cfg.trading.minProfitThreshold * opp.buyPrice ∧
      cfg.risk.minLiquidityDepth ≤ opp.maxQuantity) ∧
    (¬ dirAQualifies cfg pb kb → ¬ dirBQualifies cfg pb kb →
      detectArbitrage cfg pb kb m = none) := by
  constructor
  · intro opp h
    obtain ⟨hinner, _, hliq⟩ := validateDetected_some h
    have hliq' := not_lt.mp hliq
    rcases detectCase2_some hinner with ⟨rfl, hB⟩ | hsome1
    · obtain ⟨h1, h2⟩ := dirBOpportunity_property (m := m) hB
      exact ⟨h1, h2, hliq'⟩
    · obtain ⟨rfl, hA⟩ := detectCase1_some hsome1
      obtain ⟨h1, h2⟩ := dirAOpportunity_property (m := m) hA
      exact ⟨h1, h2, hliq'⟩
  · intro hA hB
    unfold detectArbitrage
    rw [detectCase1_eq_none hA, detectCase2_eq_none hB]
    rfl

/-- The mapping fixture used by the concrete detector scenarios. -/
def mapping0 : EventMapping :=
  { id := "m0"
    polymarketConditionId := "poly-123"
    kalshiTicker := "KALSHI-TEST"
    eventDescription := "Test Event"
    matchConfidence := 1
    resolutionDate := 0
    matchMethod := MatchMethod.exact
    outcomeMapping := [("Yes", "yes"), ("No", "no")]
    isActive := true
    createdAt := 0
    updatedAt := 0 }

/-- Scenario-1 Polymarket book: bid 0.40/100, ask 0.42/100. -/
def pbHappy : OrderBook :=
  { bids := [{ price := 40/100, size := 100 }]
    asks := [{ price := 42/100, size := 100 }]
    timestamp := 0 }

/-- Scenario-1 Kalshi book: bid 0.50/100, ask 0.52/100. -/
def kbHappy : OrderBook :=
  { bids := [{ price := 50/100, size := 100 }]
    asks := [{ price := 52/100, size := 100 }]
    timestamp := 0 }

/-- Scenario-2 Polymarket book (no profitable spread). -/
def pbFlat : OrderBook :=
  { bids := [{ price := 48/100, size := 100 }]
    asks := [{ price := 50/100, size := 100 }]
    timestamp := 0 }

/-- Scenario-2 Kalshi book (no profitable spread). -/
def kbFlat : OrderBook :=
  { bids := [{ price := 49/100, size := 100 }]
    asks := [{ price := 51/100, size := 100 }]
    timestamp := 0 }

/-- Witness for C4: the scenario-1 books produce an opportunity satisfying
the claimed properties, and the scenario-2 books produce `none`. -/
theorem detector_direction_witness :
    (detectArbitrage defaultConfig pbHappy kbHappy mapping0 =
      some (dirAOpportunity defaultConfig pbHappy kbHappy mapping0) ∧
     (dirAOpportunity defaultConfig pbHappy kbHappy mapping0).buyPlatform ≠
       (dirAOpportunity defaultConfig pbHappy kbHappy mapping0).sellPlatform ∧
     defaultConfig.risk.minLiquidityDepth ≤
       (dirAOpportunity defaultConfig pbHappy kbHappy mapping0).maxQuantity) ∧
    detectArbitrage defaultConfig pbFlat kbFlat mapping0 = none := by
  have hsome : detectArbitrage defaultConfig pbHappy kbHappy mapping0 =
      some (dirAOpportunity defaultConfig pbHappy kbHappy mapping0) := by
    norm_num [detectArbitrage, detectCase1, detectCase2, validateDetected, dirAOpportunity,
      bestAskPrice, bestBidPrice, bestAskSize, bestBidSize, orFalsy, estimateFees,
      createOpportunity, calculateExecutionRisk, defaultConfig, pbHappy, kbHappy,
      poly_ne_kalshi, kalshi_ne_poly]
  have hprops := (detector_direction defaultConfig pbHappy kbHappy mapping0).1
    (dirAOpportunity defaultConfig pbHappy kbHappy mapping0) hsome
  refine ⟨⟨hsome, hprops.1, hprops.2.2⟩, ?_⟩
  exact (detector_direction defaultConfig pbFlat kbFlat mapping0).2
    (by norm_num [dirAQualifies, bestAskPrice, bestBidPrice, orFalsy, pbFlat, kbFlat])
    (by norm_num [dirBQualifies, bestAskPrice, bestBidPrice, orFalsy, estimateFees, pbFlat,
      kbFlat, defaultConfig])

/-! ### C5 -/

/-- Polymarket book for the two-direction scenario: deep bid 0.80/500,
cheap thin ask 0.10/50. -/
def pbBoth : OrderBook :=
  { bids := [{ price := 8/10, size := 500 }]
    asks := [{ price := 1/10, size := 50 }]
    timestamp := 0 }

/-- Kalshi book for the two-direction scenario: rich thin bid 0.90/50,
cheap deep ask 0.20/500. -/
def kbBoth : OrderBook :=
  { bids := [{ price := 9/10, size := 50 }]
    asks := [{ price := 2/10, size := 500 }]
    timestamp := 0 }

/-- **C5** counterexample.  On `pbBoth`/`kbBoth` both directions qualify;
direction B (buy Kalshi) has the greater `net_profit × max_qty`
(0.596 × 500 against 0.791 × 50), yet the detector returns direction A
(buy Polymarket), because the source compares per-contract `netProfit`
only.  This refutes the claim that the direction with the greater
`net_profit × max_qty` is returned. -/
theorem detector_pick_counterexample :
    (detectArbitrage defaultConfig pbBoth kbBoth mapping0).map Opportunity.buyPlatform =
      some Platform.polymarket ∧
    (dirBOpportunity defaultConfig pbBoth kbBoth mapping0).netProfit *
        (dirBOpportunity defaultConfig pbBoth kbBoth mapping0).maxQuantity >
      (dirAOpportunity defaultConfig pbBoth kbBoth mapping0).netProfit *
        (dirAOpportunity defaultConfig pbBoth kbBoth mapping0).maxQuantity := by
  constructor
  · norm_num [detectArbitrage, detectCase1, detectCase2, validateDetected,
      bestAskPrice, bestBidPrice, bestAskSize, bestBidSize, orFalsy, estimateFees,
      createOpportunity, calculateExecutionRisk, defaultConfig, pbBoth, kbBoth,
      poly_ne_kalshi, kalshi_ne_poly]
  · norm_num [dirAOpportunity, dirBOpportunity, createOpportunity, calculateExecutionRisk,
      bestAskPrice, bestBidPrice, bestAskSize, bestBidSize, orFalsy, estimateFees,
      defaultConfig, pbBoth, kbBoth, poly_ne_kalshi, kalshi_ne_poly]

/-- **C5** (amended).  When both directions qualify, the detector selects
the direction with the greater per-contract `netProfit` (ties keep
direction A, buy-Polymarket); the selected opportunity then goes through
the profit/liquidity validation.  The product `net_profit × max_qty` plays
no role in the choice. -/
theorem detector_pick_by_netProfit (cfg : Config) (pb kb : OrderBook) (m : EventMapping)
    (hA : dirAQualifies cfg pb kb) (hB : dirBQualifies cfg pb kb) :
    detectArbitrage cfg pb kb m =
      validateDetected cfg
        (some (if (dirBOpportunity cfg pb kb m).netProfit >
                  (dirAOpportunity cfg pb kb m).netProfit
               then dirBOpportunity cfg pb kb m
               else dirAOpportunity cfg pb kb m)) := by
  unfold detectArbitrage
  rw [detectCase1_eq_some hA, detectCase2_eq_of_qualifies hB]
  simp only
  split
  · rfl
  · rfl

/-- Witness for C5 (amended) on the two-direction scenario: direction A has
the greater per-contract `netProfit`, so it is selected. -/
theorem detector_pick_by_netProfit_witness :
    detectArbitrage defaultConfig pbBoth kbBoth mapping0 =
      validateDetected defaultConfig
        (some (if (dirBOpportunity defaultConfig pbBoth kbBoth mapping0).netProfit >
                  (dirAOpportunity defaultConfig pbBoth kbBoth mapping0).netProfit
               then dirBOpportunity defaultConfig pbBoth kbBoth mapping0
               else dirAOpportunity defaultConfig pbBoth kbBoth mapping0)) :=
  detector_pick_by_netProfit defaultConfig pbBoth kbBoth mapping0
    (by norm_num [dirAQualifies, bestAskPrice, bestBidPrice, orFalsy, estimateFees,
      pbBoth, kbBoth, defaultConfig, poly_ne_kalshi, kalshi_ne_poly])
    (by norm_num [dirBQualifies, bestAskPrice, bestBidPrice, orFalsy, estimateFees,
      pbBoth, kbBoth, defaultConfig, poly_ne_kalshi, kalshi_ne_poly])

/-! ### C10 -/

lemma bestBidPrice_le_one {b : OrderBook} (h : ∀ l ∈ b.bids, l.price ≤ 1) :
    bestBidPrice b ≤ 1 := by
  cases hb : b.bids with
  | nil => simp [bestBidPrice, hb, orFalsy]
  | cons l rest =>
    have hl := h l (by rw [hb]; exact List.mem_cons_self l rest)
    by_cases hz : l.price = 0
    · simp [bestBidPrice, hb, orFalsy, hz]
    · simpa [bestBidPrice, hb, orFalsy, hz] using hl

lemma bestAskPrice_nonneg {b : OrderBook} (h : ∀ l ∈ b.asks, 0 ≤ l.price) :
    0 ≤ bestAskPrice b := by
  cases hb : b.asks with
  | nil => simp [bestAskPrice, hb, orFalsy]
  | cons l rest =>
    have hl := h l (by rw [hb]; exact List.mem_cons_self l rest)
    by_cases hz : l.price = 0
    · simp [bestAskPrice, hb, orFalsy, hz]
    · simpa [bestAskPrice, hb, orFalsy, hz] using hl

/-- **C10** (amended).  The detector is total on degenerate books: a
missing best bid is replaced by price 0 / size 0 and a missing best ask by
price 1 / size 0, so (for in-range prices) a direction whose buy-side asks
or sell-side bids are missing can never satisfy its price inequality; when
each direction references a missing side — in particular when both books
are empty — `detectArbitrage` returns `none`.  (A single missing side does
not силence the *other* direction, contrary to the claim as stated.) -/
theorem detector_degenerate_books :
    (∀ b : OrderBook,
      (b.asks = [] → bestAskPrice b = 1 ∧ bestAskSize b = 0) ∧
      (b.bids = [] → bestBidPrice b = 0 ∧ bestBidSize b = 0)) ∧
    (∀ (cfg : Config) (m : EventMapping) (pb kb : OrderBook),
      (∀ l ∈ pb.bids, l.price ≤ 1) → (∀ l ∈ kb.bids, l.price ≤ 1) →
      (∀ l ∈ pb.asks, 0 ≤ l.price) → (∀ l ∈ kb.asks, 0 ≤ l.price) →
      (pb.asks = [] ∨ kb.bids = []) → (kb.asks = [] ∨ pb.bids = []) →
      detectArbitrage cfg pb kb m = none) := by
  constructor
  · intro b
    constructor
    · intro h
      unfold bestAskPrice bestAskSize orFalsy
      rw [h]
      exact ⟨rfl, rfl⟩
    · intro h
      unfold bestBidPrice bestBidSize orFalsy
      rw [h]
      exact ⟨rfl, rfl⟩
  · intro cfg m pb kb hpb1 hkb1 hpa0 hka0 hA hB
    have hnA : ¬ dirAQualifies cfg pb kb := by
      intro hq
      have hlt : bestAskPrice pb < bestBidPrice kb := hq.1
      rcases hA with h | h
      · have h1 : bestAskPrice pb = 1 := by simp [bestAskPrice, h, orFalsy]
        have h2 : bestBidPrice kb ≤ 1 := bestBidPrice_le_one hkb1
        rw [h1] at hlt
        exact absurd hlt (not_lt.mpr h2)
      · have h1 : bestBidPrice kb = 0 := by simp [bestBidPrice, h, orFalsy]
        have h2 : 0 ≤ bestAskPrice pb := bestAskPrice_nonneg hpa0
        rw [h1] at hlt
        exact absurd hlt (not_lt.mpr h2)
    have hnB : ¬ dirBQualifies cfg pb kb := by
      intro hq
      have hlt : bestAskPrice kb < bestBidPrice pb := hq.1
      rcases hB with h | h
      · have h1 : bestAskPrice kb = 1 := by simp [bestAskPrice, h, orFalsy]
        have h2 : bestBidPrice pb ≤ 1 := bestBidPrice_le_one hpb1
        rw [h1] at hlt
        exact absurd hlt (not_lt.mpr h2)
      · have h1 : bestBidPrice pb = 0 := by simp [bestBidPrice, h, orFalsy]
        have h2 : 0 ≤ bestAskPrice kb := bestAskPrice_nonneg hka0
        rw [h1] at hlt
        exact absurd hlt (not_lt.mpr h2)
    exact (detector_direction cfg pb kb m).2 hnA hnB

/-- A completely empty order book. -/
def emptyBook : OrderBook :=
  { bids := [], asks := [], timestamp := 0 }

/-- Witness for C10: on two empty books every side is substituted and the
detector returns `none`. -/
theorem detector_degenerate_books_witness :
    (bestAskPrice emptyBook = 1 ∧ bestAskSize emptyBook = 0) ∧
    detectArbitrage defaultConfig emptyBook emptyBook mapping0 = none :=
  ⟨(detector_degenerate_books.1 emptyBook).1 rfl,
   detector_degenerate_books.2 defaultConfig mapping0 emptyBook emptyBook
     (by simp [emptyBook]) (by simp [emptyBook]) (by simp [emptyBook]) (by simp [emptyBook])
     (Or.inl rfl) (Or.inl rfl)⟩

/-- Polymarket book with an empty ask side but a live bid. -/
def pbEmptyAsk : OrderBook :=
  { bids := [{ price := 8/10, size := 100 }], asks := [], timestamp := 0 }

/-- Kalshi book with an empty bid side but a live ask. -/
def kbEmptyBid : OrderBook :=
  { bids := [], asks := [{ price := 2/10, size := 100 }], timestamp := 0 }

/-- **C10** counterexample.  Both books have an empty side, yet direction B
(buy Kalshi at 0.20, sell Polymarket at 0.80) still qualifies, and the
detector returns an opportunity rather than `null`: an empty side disables
only the direction that references it. -/
theorem detector_degenerate_counterexample :
    pbEmptyAsk.asks = [] ∧ kbEmptyBid.bids = [] ∧
    (detectArbitrage defaultConfig pbEmptyAsk kbEmptyBid mapping0).isSome = true := by
  refine ⟨rfl, rfl, ?_⟩
  norm_num [detectArbitrage, detectCase1, detectCase2, validateDetected,
    bestAskPrice, bestBidPrice, bestAskSize, bestBidSize, orFalsy, estimateFees,
    createOpportunity, calculateExecutionRisk, defaultConfig, pbEmptyAsk, kbEmptyBid,
    poly_ne_kalshi, kalshi_ne_poly]

/-! ### C1 -/

lemma live_ne_dryRun : OperatingMode.live ≠ OperatingMode.dry_run := by decide

/-- With the default threshold `maxAsymmetricExecutions = 1`, recording an
asymmetric execution always leaves the breaker paused. -/
lemma recordFailure_asym_paused (cfg : Config) (now : Int) (s : CBState)
    (h : cfg.risk.maxAsymmetricExecutions = 1) :
    (CircuitBreaker.recordFailure cfg now FailureType.ASYMMETRIC_EXECUTION s).paused = true := by
  unfold CircuitBreaker.recordFailure
  rw [h]
  simp only [reduceCtorEq, eq_self_iff_true, if_true, ite_true, if_false, ite_false]
  split
  · rw [if_pos (by rw [(pause_counters _ _ _).2]; exact Nat.le_add_left 1 _)]
    exact pause_paused _ _ _
  · rw [if_pos (Nat.le_add_left 1 _)]
    exact pause_paused _ _ _

/-- **C1** (amended).  In live mode, when an execution attempt reaches the
firing stage (breaker unpaused, risk approved, still valid) and exactly one
leg's FOK order reports `Filled` while the other reports `Rejected`, the
engine persists an execution record with status `failed`, records an
`ASYMMETRIC_EXECUTION` failure that leaves the circuit breaker paused
(under the default `maxAsymmetricExecutions = 1`), emits a `critical`
alert, and reports `circuitBreakerTriggered`; the risk-manager ledger,
however, is left unchanged — the open unhedged position is *not* recorded
there. -/
theorem asymmetric_execution_effects
    (cfg : Config) (w : EngineWorld) (now : Int) (opp : Opportunity)
    (sugg : Option ℚ) (buyR sellR : OrderResult)
    (hmode : cfg.operatingMode = OperatingMode.live)
    (hmax : cfg.risk.maxAsymmetricExecutions = 1)
    (hpaused : w.cb.paused = false)
    (hne : buyR.success ≠ sellR.success) :
    (executeEngine cfg w now opp true sugg true (some buyR) (some sellR)).2.executionsSaved =
      w.executionsSaved ++
        [({ status := "failed", notes := some "Asymmetric execution",
            isDryRun := false } : SavedExecution)] ∧
    (executeEngine cfg w now opp true sugg true (some buyR) (some sellR)).2.cb.paused = true ∧
    (executeEngine cfg w now opp true sugg true (some buyR) (some sellR)).2.alerts =
      w.alerts ++ [AlertLevel.critical] ∧
    (executeEngine cfg w now opp true sugg true
      (some buyR) (some sellR)).1.circuitBreakerTriggered = true ∧
    (executeEngine cfg w now opp true sugg true (some buyR) (some sellR)).2.risk = w.risk := by
  unfold executeEngine
  rw [hpaused, hmode]
  cases hb : buyR.success <;> cases hs : sellR.success
  · exact absurd (hb.trans hs.symm) hne
  · simp only [Bool.false_and, Bool.not_false, Bool.not_true, Bool.true_and, Bool.and_false,
      Bool.and_true, Option.map_some', Option.getD_some, hb, hs, reduceCtorEq, if_false,
      ite_false, ite_true, Bool.false_eq_true, Bool.not_eq_true]
    exact ⟨by trivial, recordFailure_asym_paused cfg now w.cb hmax, by trivial, by trivial,
      by trivial⟩
  · simp only [Bool.false_and, Bool.not_false, Bool.not_true, Bool.true_and, Bool.and_false,
      Bool.and_true, Option.map_some', Option.getD_some, hb, hs, reduceCtorEq, if_false,
      ite_false, ite_true, Bool.false_eq_true, Bool.not_eq_true]
    exact ⟨by trivial, recordFailure_asym_paused cfg now w.cb hmax, by trivial, by trivial,
      by trivial⟩
  · exact absurd (hb.trans hs.symm) hne

/-- The default configuration switched to live mode. -/
def liveConfig : Config :=
  { defaultConfig with operatingMode := OperatingMode.live }

/-- A fresh engine world: unpaused breaker, empty ledger, no effects. -/
def worldInitial : EngineWorld :=
  { cb := CBState.initial
    risk := RiskState.initial
    executionsSaved := []
    alerts := []
    successfulTrades := [] }

/-- A filled FOK leg. -/
def filledResult : OrderResult :=
  { success := true, fillPrice := some (42/100), fillQuantity := some 50, fees := some 0 }

/-- A rejected FOK leg. -/
def rejectedResult : OrderResult :=
  { success := false, fillPrice := none, fillQuantity := none, fees := none }

/-- Witness for C1 (amended) at a concrete asymmetric execution. -/
theorem asymmetric_execution_effects_witness :
    (executeEngine liveConfig worldInitial 0
        (dirAOpportunity defaultConfig pbHappy kbHappy mapping0)
        true none true (some filledResult) (some rejectedResult)).2.cb.paused = true ∧
    (executeEngine liveConfig worldInitial 0
        (dirAOpportunity defaultConfig pbHappy kbHappy mapping0)
        true none true (some filledResult) (some rejectedResult)).2.risk = worldInitial.risk :=
  ⟨(asymmetric_execution_effects liveConfig worldInitial 0
      (dirAOpportunity defaultConfig pbHappy kbHappy mapping0) none filledResult rejectedResult
      rfl rfl rfl (by decide)).2.1,
   (asymmetric_execution_effects liveConfig worldInitial 0
      (dirAOpportunity defaultConfig pbHappy kbHappy mapping0) none filledResult rejectedResult
      rfl rfl rfl (by decide)).2.2.2.2⟩

/-- **C1** counterexample.  On a concrete asymmetric execution from a fresh
world the engine persists the `failed` record, pauses the breaker and
emits the critical alert, but the risk-manager ledger stays empty: the
open unhedged position is never recorded in the ledger, refuting that
conjunct of the claim. -/
theorem asymmetric_position_not_recorded :
    (executeEngine liveConfig worldInitial 0
        (dirAOpportunity defaultConfig pbHappy kbHappy mapping0)
        true none true (some filledResult)
        (some rejectedResult)).2.risk.positions = [] ∧
    (executeEngine liveConfig worldInitial 0
        (dirAOpportunity defaultConfig pbHappy kbHappy mapping0)
        true none true (some filledResult) (some rejectedResult)).2.executionsSaved =
      [({ status := "failed", notes := some "Asymmetric execution",
          isDryRun := false } : SavedExecution)] ∧
    (executeEngine liveConfig worldInitial 0
        (dirAOpportunity defaultConfig pbHappy kbHappy mapping0)
        true none true (some filledResult) (some rejectedResult)).2.cb.paused = true ∧
    (executeEngine liveConfig worldInitial 0
        (dirAOpportunity defaultConfig pbHappy kbHappy mapping0)
        true none true (some filledResult) (some rejectedResult)).2.alerts =
      [AlertLevel.critical] := by
  refine ⟨?_, ?_, ?_, ?_⟩ <;>
    norm_num [executeEngine, executeDryRun, liveConfig, worldInitial, filledResult,
      rejectedResult, orFalsy, CircuitBreaker.recordFailure, CircuitBreaker.pause,
      CBState.initial, RiskState.initial, defaultConfig, live_ne_dryRun]

/-! ### C3 -/

/-- The Polymarket market of matcher Scenario 4 (exact title, December 2025
resolution). -/
def polyBtc : PolymarketMarket :=
  { conditionId := "condition-123"
    title := "Will Bitcoin reach $100k by end of 2025?"
    endDate := 1767139200000 }

/-- The Kalshi candidate of matcher Scenario 4: identical title but a June
2026 expiration, about six months later. -/
def kalshiBtc : KalshiMarket :=
  { ticker := "BTC-100K-2025"
    title := "Will Bitcoin reach $100k by end of 2025?"
    category := "crypto"
    expirationTime := 1782864000000 }

/-- **C3** (code bug).  With `require_date_validation = true` and identical
normalized titles whose resolution dates differ by far more than the 24-hour
tolerance, `findKalshiEquivalent` still returns an `exact` mapping: the
source applies the date guard only on the fuzzy path, while the repository's
own matcher test (`should reject exact match when dates do not align`)
requires `null` here. -/
theorem exact_match_skips_date_guard :
    (findKalshiEquivalent defaultConfig [] polyBtc [kalshiBtc]).map EventMapping.matchMethod =
      some MatchMethod.exact ∧
    defaultConfig.matching.requireDateValidation = true ∧
    datesMatch polyBtc.endDate kalshiBtc.expirationTime (24 * 60 * 60 * 1000) = false := by
  refine ⟨?_, rfl, by decide⟩
  decide

end ArbPredict
